import Mathlib

/-!
Verification development for the quality-audit script `src/audit_analysis.py`.

The script loads a spreadsheet with sheets "VC Firms" and "Team Members"
(required) and "Portfolio Companies" / "Extraction Metrics" (optional),
computes coverage statistics over the member table, draws a seeded random
sample of firms, prints a preview, and exports the sampled firms with their
member rows to a JSON file.

The embedding below follows the Python source line by line:

* `Value` models a pandas cell: a text value, a numeric value, the NaN
  missing-value marker, or some other Python object carried by its text
  representation.  A cell absent from a loaded row is NaN, as in pandas.
* `pdEq` models elementwise `==` on pandas data, where NaN compares unequal
  to everything, including itself.
* `coverageFilled` is the predicate of lines 66/70/75/79:
  `notna(v) and v != ''` — note that it does not strip whitespace.
* `samplerPresent` is the predicate of lines 112-114:
  `v and str(v).strip()` — Python truthiness followed by a strip, under
  which NaN is truthy and `str(nan) = "nan"` strips to a non-empty text.
* The process-wide random generator is modelled as a deterministic state
  (`Nat`); `seedGlobal` models `random.seed(42)` replacing whatever state
  the process had, and `lcgNext` is a concrete deterministic generator
  standing in for CPython's seeded Mersenne Twister.  Every theorem about
  the sampler below depends only on the generator being a deterministic
  in-range function of the state, not on the particular constants.
* `sampleAux` mirrors the pool-based selection of `random.sample`: at each
  step one position below the active pool size is drawn, the element there
  is taken, and the last active element is swapped into its slot.
* Failures (missing sheet, missing column, empty selection in `iloc[0]`)
  are modelled with `Except PyErr`; the bare `except:` blocks of lines
  24-37 become total handlers converting any error into an absent feature.
* The run's observable effects (printed statistics, preview, exported JSON
  array) are collected in `AuditOutput`; an aborted run produces
  `Except.error` and hence no output and no JSON file.
-/

/-- A spreadsheet cell value: text, a number, the NaN missing-value marker,
or another Python object carried by its text representation. -/
inductive Value where
  | str (s : String)
  | num (q : ℚ)
  | nan
  | other (txt : String)
deriving DecidableEq

/-- A loaded table row: association list from column name to cell value.
A column of the frame that does not occur in the row holds NaN. -/
abbrev Row := List (String × Value)

/-- A loaded pandas data frame: the column names and the rows. -/
structure DataFrame where
  cols : List String
  rows : List Row
deriving DecidableEq

/-- The empty frame `pd.DataFrame()` used by the bare except handlers. -/
def DataFrame.empty : DataFrame := ⟨[], []⟩

/-- Cell of a row under a column name; absent cells are NaN, as in a frame
loaded by pandas. -/
def cellVal (r : Row) (c : String) : Value := (r.lookup c).getD Value.nan

/-- Column of a frame as the list of its cells, in row order
(`df[c]` after the existence of the column has been established). -/
def colValues (df : DataFrame) (c : String) : List Value :=
  df.rows.map (fun r => cellVal r c)

deriving instance DecidableEq for Except

/-- Errors a run can abort with. -/
inductive PyErr where
  | sheetNotFound (name : String)
  | keyError (col : String)
  | indexError
  | otherError (msg : String)
deriving DecidableEq

/-- The input file: sheet name to either a loaded frame or the error that
reading that sheet raises (a missing sheet is an absent entry). -/
abbrev Spreadsheet := List (String × Except PyErr DataFrame)

/-- Read a sheet (`pd.read_excel(excel_file, sheet_name=name)`): a missing
sheet raises, and a corrupt sheet propagates its own error. -/
def readSheet (file : Spreadsheet) (name : String) : Except PyErr DataFrame :=
  match file.lookup name with
  | none => Except.error (PyErr.sheetNotFound name)
  | some r => r

/-- Lines 24-37: `try: ... except:` around an optional sheet.  Any error
whatsoever becomes an empty frame with availability flag `false`. -/
def readOptionalSheet (file : Spreadsheet) (name : String) : DataFrame × Bool :=
  match readSheet file name with
  | Except.ok df => (df, true)
  | Except.error _ => (DataFrame.empty, false)

/-- NaN test (`pd.isna`). -/
def isna : Value → Bool
  | Value.nan => true
  | _ => false

/-- Elementwise pandas equality: NaN is unequal to everything, including
itself; otherwise plain value equality. -/
def pdEq (a b : Value) : Bool :=
  !(isna a) && !(isna b) && decide (a = b)

/-- Coverage predicate of lines 66, 70, 75 and 79:
`df[col].notna() & (df[col] != '')` — no whitespace stripping. -/
def coverageFilled (v : Value) : Bool :=
  !(isna v) && decide (v ≠ Value.str "")

/-- Python str.strip on the character list. -/
def stripChars (cs : List Char) : List Char :=
  ((cs.dropWhile Char.isWhitespace).reverse.dropWhile Char.isWhitespace).reverse

/-- Python `str.strip()`. -/
def pyStrip (s : String) : String := String.mk (stripChars s.data)

/-- Python truthiness of a cell value: empty text and zero are falsy; NaN
is a float and truthy; other objects are truthy. -/
def pyTruthy : Value → Bool
  | Value.str s => decide (s ≠ "")
  | Value.num q => decide (q ≠ 0)
  | Value.nan => true
  | Value.other _ => true

/-- Python `str(v)` of a cell value; `str(nan)` is `"nan"`. -/
def pyStr : Value → String
  | Value.str s => s
  | Value.num q => toString q.num
  | Value.nan => "nan"
  | Value.other t => t

/-- Presence test of lines 112-114 applied to a value that `Series.get`
found: `v and str(v).strip()` in boolean position. -/
def samplerPresent (v : Value) : Bool :=
  pyTruthy v && decide (pyStrip (pyStr v) ≠ "")

/-- The predicate in the spec's words — "non-null AND, after trimming,
non-empty" — stated for comparison with `coverageFilled` and
`samplerPresent`, which are the two predicates the code actually uses. -/
def specStripFilled (v : Value) : Bool :=
  !(isna v) && decide (pyStrip (pyStr v) ≠ "")

/-- Model of `Series.get(c)`: `none` when the column is not in the index,
otherwise the cell (which may be NaN). -/
def seriesGet (cols : List String) (r : Row) (c : String) : Option Value :=
  if c ∈ cols then some (cellVal r c) else none

/-- Presence flag of lines 112-114 for one member row and one column:
`member.get(c) and str(member.get(c)).strip()`; a missing column gives
`None`, which is falsy. -/
def samplerFlag (cols : List String) (r : Row) (c : String) : Bool :=
  match seriesGet cols r c with
  | none => false
  | some v => samplerPresent v

/-- Count of member rows whose cell under `c` satisfies the coverage
predicate (`linkedin_filled.sum()` and friends). -/
def filledCount (df : DataFrame) (c : String) : Nat :=
  (colValues df c).countP coverageFilled

/-- Rounding to one decimal place, as in the `:.1f` format. -/
def round1 (q : ℚ) : ℚ := ((round (10 * q) : ℤ) : ℚ) / 10

/-- Printed coverage percentage `100*filled/len(members_df)` rounded to one
decimal; a zero row count is a numpy scalar division by zero, which yields
NaN (modelled as `none`) rather than raising. -/
def coveragePct (df : DataFrame) (c : String) : Option ℚ :=
  if df.rows.length = 0 then none
  else some (round1 (100 * (filledCount df c : ℚ) / (df.rows.length : ℚ)))

/-- `Series.unique().tolist()`: distinct values in order of first
appearance (pandas keeps a single NaN if present); `seen` accumulates the
values already emitted. -/
def pandasUniqueAux (seen : List Value) : List Value → List Value
  | [] => []
  | x :: xs =>
    if x ∈ seen then pandasUniqueAux seen xs
    else x :: pandasUniqueAux (x :: seen) xs

/-- Distinct values of a list in order of first appearance. -/
def pandasUnique (l : List Value) : List Value := pandasUniqueAux [] l

/-- Per-firm member counts of line 60 (`groupby('vcFirm').size()`); pandas
drops NaN group keys and keeps first-appearance key order. -/
def groupSizes (mdf : DataFrame) : List Nat :=
  (pandasUnique ((colValues mdf "vcFirm").filter (fun v => !(isna v)))).map
    (fun g => mdf.rows.countP (fun r => pdEq (cellVal r "vcFirm") g))

/-- Mean members per firm of line 61; NaN (`none`) for an empty grouping. -/
def groupMean (mdf : DataFrame) : Option ℚ :=
  let sizes := groupSizes mdf
  if sizes.length = 0 then none
  else some ((sizes.sum : ℚ) / (sizes.length : ℚ))

/-- Deterministic stand-in for CPython's Mersenne Twister state update: a
linear congruential step on a 32-bit state. -/
def lcgNext (s : Nat) : Nat := (1664525 * s + 1013904223) % 4294967296

/-- Model of `random.seed(42)`: the process-wide generator state, whatever
it was, is replaced by a state that is a function of the seed alone. -/
def seedGlobal (rng : Nat) (n : Nat) : Nat := (2654435761 * n + 1) % 4294967296

/-- One draw below `n` from generator `g` in state `s`, with the advanced
state. -/
def randBelow (g : Nat → Nat) (s : Nat) (n : Nat) : Nat × Nat :=
  (g s % n, g s)

/-- Shrinking the selection pool after a draw at position `j`: the last
active element moves into slot `j` and the last slot is dropped. -/
def poolNext (pool : List Value) (j : Nat) : List Value :=
  (pool.set j (pool.getD (pool.length - 1) Value.nan)).dropLast

/-- Pool-based selection of `random.sample(population, k)`: draw a position
below the active pool size, take that element, move the last active element
into its slot, and shrink the pool. -/
def sampleAux (g : Nat → Nat) : Nat → List Value → Nat → List Value × Nat
  | 0, _, s => ([], s)
  | Nat.succ k, pool, s =>
    (pool.getD (randBelow g s pool.length).1 Value.nan ::
        (sampleAux g k (poolNext pool (randBelow g s pool.length).1)
          (randBelow g s pool.length).2).1,
      (sampleAux g k (poolNext pool (randBelow g s pool.length).1)
        (randBelow g s pool.length).2).2)

/-- `random.sample(population, k)` under generator `g` seeded to state `s`. -/
def randomSample (g : Nat → Nat) (s : Nat) (population : List Value) (k : Nat) :
    List Value :=
  (sampleAux g k population s).1

/-- The distinct firm display names of the Firms table (line 94). -/
def uniqueFirms (fdf : DataFrame) : List Value :=
  pandasUnique (colValues fdf "companyName")

/-- Lines 98-99 with the process RNG state `rng` at that point:
`random.seed(42)` replaces the state, then one call of
`random.sample(unique_firms, min(5, len(unique_firms)))` is made. -/
def scriptSampleFirmsFrom (rng : Nat) (fdf : DataFrame) : List Value :=
  let u := uniqueFirms fdf
  randomSample lcgNext (seedGlobal rng 42) u (min 5 u.length)

/-- The sampled firms of the run (the state before seeding is irrelevant;
`0` is used as a canonical prior state). -/
def scriptSampleFirms (fdf : DataFrame) : List Value := scriptSampleFirmsFrom 0 fdf

/-- Row dict of `Series.to_dict()` for a row of a frame: every frame column
mapped to the row's cell (NaN for absent cells). -/
def toDict (cols : List String) (r : Row) : List (String × Value) :=
  cols.map (fun c => (c, cellVal r c))

/-- Lines 103/120: `df[df[c] == v].iloc[0]` — first row whose cell under
`c` equals `v` under pandas equality; raises IndexError when no row
matches and KeyError when the column is missing. -/
def firstMatching (df : DataFrame) (c : String) (v : Value) : Except PyErr Row :=
  if c ∈ df.cols then
    match (df.rows.filter (fun r => pdEq (cellVal r c) v)).head? with
    | some r => Except.ok r
    | none => Except.error PyErr.indexError
  else Except.error (PyErr.keyError c)

/-- One line of the printed member preview: name, title
(`member.get('title', 'N/A')`), and the three presence flags. -/
structure PreviewMember where
  name : Value
  title : Value
  emailFlag : Bool
  linkedinFlag : Bool
  portfolioFlag : Bool
deriving DecidableEq

/-- Preview block for one sampled firm: firm name, the printed website
(`firm_data.get('websiteUrl', 'N/A')`), the member count, and the first
five members' preview lines. -/
structure PreviewFirm where
  firm : Value
  website : Value
  memberCount : Nat
  members : List PreviewMember
deriving DecidableEq

/-- Preview lines of the loop at lines 111-115 for a list of member rows;
`member['name']` raises KeyError when the column is missing. -/
def previewMembers (mcols : List String) : List Row → Except PyErr (List PreviewMember)
  | [] => Except.ok []
  | r :: rest =>
    if "name" ∈ mcols then
      match previewMembers mcols rest with
      | Except.error e => Except.error e
      | Except.ok ps =>
        Except.ok ({ name := cellVal r "name",
                     title := (seriesGet mcols r "title").getD (Value.str "N/A"),
                     emailFlag := samplerFlag mcols r "email",
                     linkedinFlag := samplerFlag mcols r "linkedinUrl",
                     portfolioFlag := samplerFlag mcols r "portfolioCompanies" } :: ps)
    else Except.error (PyErr.keyError "name")

/-- The per-firm preview loop of lines 102-115. -/
def buildPreview (fdf mdf : DataFrame) : List Value → Except PyErr (List PreviewFirm)
  | [] => Except.ok []
  | f :: fs =>
    match firstMatching fdf "companyName" f with
    | Except.error e => Except.error e
    | Except.ok row =>
      if "vcFirm" ∈ mdf.cols then
        let mems := mdf.rows.filter (fun r => pdEq (cellVal r "vcFirm") f)
        match previewMembers mdf.cols (mems.take 5) with
        | Except.error e => Except.error e
        | Except.ok pms =>
          match buildPreview fdf mdf fs with
          | Except.error e => Except.error e
          | Except.ok rest =>
            Except.ok ({ firm := f,
                         website := (seriesGet fdf.cols row "websiteUrl").getD (Value.str "N/A"),
                         memberCount := mems.length,
                         members := pms } :: rest)
      else Except.error (PyErr.keyError "vcFirm")

/-- One element of the exported `sample_data` array (lines 122-127), before
JSON serialization. -/
structure SampleEntry where
  firm : Value
  website : Value
  firm_data : List (String × Value)
  team_members : List (List (String × Value))
deriving DecidableEq

/-- The export loop of lines 118-127: for each sampled firm, the full dict
of its first matching firm row and the dicts of ALL matching member rows
(no five-member cap here). -/
def buildSampleData (fdf mdf : DataFrame) : List Value → Except PyErr (List SampleEntry)
  | [] => Except.ok []
  | f :: fs =>
    match firstMatching fdf "companyName" f with
    | Except.error e => Except.error e
    | Except.ok row =>
      if "vcFirm" ∈ mdf.cols then
        let dict := toDict fdf.cols row
        let mems := mdf.rows.filter (fun r => pdEq (cellVal r "vcFirm") f)
        match buildSampleData fdf mdf fs with
        | Except.error e => Except.error e
        | Except.ok rest =>
          Except.ok ({ firm := f,
                       website := (dict.lookup "websiteUrl").getD (Value.str ""),
                       firm_data := dict,
                       team_members := mems.map (toDict mdf.cols) } :: rest)
      else Except.error (PyErr.keyError "vcFirm")

/-- A serialized JSON value of the exported file. -/
inductive JValue where
  | jstr (s : String)
  | jnum (q : ℚ)
  | jnan
deriving DecidableEq

/-- Serialization of one cell by `json.dump(..., default=str)`: text and
numbers are natively representable; NaN is emitted as the (non-standard)
NaN literal; any other object is not natively representable and goes
through `default=str`, i.e. its text representation. -/
def jsonEncode : Value → JValue
  | Value.str s => JValue.jstr s
  | Value.num q => JValue.jnum q
  | Value.nan => JValue.jnan
  | Value.other t => JValue.jstr t

/-- A serialized element of the exported JSON array. -/
structure JEntry where
  firm : JValue
  website : JValue
  firm_data : List (String × JValue)
  team_members : List (List (String × JValue))
deriving DecidableEq

/-- Serialization of one sample entry. -/
def encodeEntry (e : SampleEntry) : JEntry :=
  { firm := jsonEncode e.firm,
    website := jsonEncode e.website,
    firm_data := e.firm_data.map (fun p => (p.1, jsonEncode p.2)),
    team_members := e.team_members.map (fun d => d.map (fun p => (p.1, jsonEncode p.2))) }

/-- The exported JSON array for a frame pair and a list of sampled firms. -/
def exportJson (fdf mdf : DataFrame) (smp : List Value) : Except PyErr (List JEntry) :=
  match buildSampleData fdf mdf smp with
  | Except.error e => Except.error e
  | Except.ok entries => Except.ok (entries.map encodeEntry)

/-- Everything an aborted-free run observably produces: the printed counts,
availability flags, coverage percentages, sampled firms, preview, and the
JSON array written to the sample file. -/
structure AuditOutput where
  totalFirms : Nat
  totalMembers : Nat
  hasPortfolio : Bool
  hasMetrics : Bool
  meanMembersPerFirm : Option ℚ
  linkedinPct : Option ℚ
  emailPct : Option ℚ
  portfolioPct : Option (Option ℚ)
  titlePct : Option ℚ
  sampleFirms : List Value
  preview : List PreviewFirm
  jsonFile : List JEntry
deriving DecidableEq

/-- The loading phase, lines 20-37: the two required sheets, then the two
optional sheets behind their catch-all handlers. -/
def loadPhase (file : Spreadsheet) :
    Except PyErr (DataFrame × DataFrame × (DataFrame × Bool) × (DataFrame × Bool)) :=
  match readSheet file "VC Firms" with
  | Except.error e => Except.error e
  | Except.ok fdf =>
    match readSheet file "Team Members" with
    | Except.error e => Except.error e
    | Except.ok mdf =>
      Except.ok (fdf, mdf, readOptionalSheet file "Portfolio Companies",
        readOptionalSheet file "Extraction Metrics")

/-- The compute-and-report phase after loading, lines 39-133: the column
accesses raise in source order (vcFirm at line 60, linkedinUrl at 66, email
at 70, title at 79, companyName at 94); portfolioCompanies and
decisionMakerTier are guarded by explicit column checks; then the preview
loop runs, then the export loop, and finally the JSON file is written. -/
def auditCore (rng : Nat) (fdf mdf : DataFrame) (hasP hasM : Bool) :
    Except PyErr AuditOutput :=
  if "vcFirm" ∈ mdf.cols then
    if "linkedinUrl" ∈ mdf.cols then
      if "email" ∈ mdf.cols then
        if "title" ∈ mdf.cols then
          if "companyName" ∈ fdf.cols then
            match buildPreview fdf mdf (scriptSampleFirmsFrom rng fdf) with
            | Except.error e => Except.error e
            | Except.ok prev =>
              match exportJson fdf mdf (scriptSampleFirmsFrom rng fdf) with
              | Except.error e => Except.error e
              | Except.ok jentries =>
                Except.ok
                  { totalFirms := fdf.rows.length,
                    totalMembers := mdf.rows.length,
                    hasPortfolio := hasP,
                    hasMetrics := hasM,
                    meanMembersPerFirm := groupMean mdf,
                    linkedinPct := coveragePct mdf "linkedinUrl",
                    emailPct := coveragePct mdf "email",
                    portfolioPct :=
                      if "portfolioCompanies" ∈ mdf.cols then
                        some (coveragePct mdf "portfolioCompanies")
                      else none,
                    titlePct := coveragePct mdf "title",
                    sampleFirms := scriptSampleFirmsFrom rng fdf,
                    preview := prev,
                    jsonFile := jentries }
          else Except.error (PyErr.keyError "companyName")
        else Except.error (PyErr.keyError "title")
      else Except.error (PyErr.keyError "email")
    else Except.error (PyErr.keyError "linkedinUrl")
  else Except.error (PyErr.keyError "vcFirm")

/-- The whole run: load, then compute, preview and export.  `rng` is the
process-wide random generator state when the script starts; `random.seed(42)`
replaces it before the single sampling draw.  An `Except.error` result is an
aborted run: nothing was exported. -/
def runAudit (rng : Nat) (file : Spreadsheet) : Except PyErr AuditOutput :=
  match loadPhase file with
  | Except.error e => Except.error e
  | Except.ok (fdf, mdf, po, mo) => auditCore rng fdf mdf po.2 mo.2

/-- Example firm table: one firm with a website. -/
def fdfAcme : DataFrame :=
  ⟨["companyName", "websiteUrl"],
   [[("companyName", Value.str "Acme"), ("websiteUrl", Value.str "https://acme.vc")]]⟩

/-- Example member table: two members of Acme, one with every contact field
and one with an empty email and absent linkedinUrl/title cells. -/
def mdfTwo : DataFrame :=
  ⟨["vcFirm", "name", "linkedinUrl", "email", "title"],
   [[("vcFirm", Value.str "Acme"), ("name", Value.str "Bob"),
     ("linkedinUrl", Value.str "L"), ("email", Value.str "e@x"), ("title", Value.str "GP")],
    [("vcFirm", Value.str "Acme"), ("name", Value.str "Ann"), ("email", Value.str "")]]⟩

/-- Example input with both required sheets present and both optional
sheets missing. -/
def fileOk : Spreadsheet :=
  [("VC Firms", Except.ok fdfAcme), ("Team Members", Except.ok mdfTwo)]

/-- Example input whose required "VC Firms" sheet is missing. -/
def fileNoFirms : Spreadsheet := [("Team Members", Except.ok mdfTwo)]

/-- Example input whose two optional sheets raise read errors. -/
def fileCorruptOpt : Spreadsheet :=
  [("VC Firms", Except.ok fdfAcme), ("Team Members", Except.ok mdfTwo),
   ("Portfolio Companies", Except.error (PyErr.otherError "corrupt sheet")),
   ("Extraction Metrics", Except.error (PyErr.otherError "bad bytes"))]

/-- Example member table lacking the linkedinUrl, email and title columns. -/
def mdfBare : DataFrame :=
  ⟨["vcFirm", "name"], [[("vcFirm", Value.str "Acme"), ("name", Value.str "Bob")]]⟩

/-- Example input whose member sheet has only the columns the spec calls
required. -/
def fileBareMembers : Spreadsheet :=
  [("VC Firms", Except.ok fdfAcme), ("Team Members", Except.ok mdfBare)]

/-- Example firm table with no websiteUrl column. -/
def fdfNoWeb : DataFrame := ⟨["companyName"], [[("companyName", Value.str "A")]]⟩

/-- Example firm table whose websiteUrl cell is the NaN marker. -/
def fdfNanWeb : DataFrame :=
  ⟨["companyName", "websiteUrl"], [[("companyName", Value.str "A")]]⟩

/-- Example member table with the required columns and zero rows. -/
def mdfEmpty : DataFrame :=
  ⟨["vcFirm", "name", "linkedinUrl", "email", "title"], []⟩

/-- Example input with a valid firm sheet and an empty member sheet. -/
def fileEmptyMembers : Spreadsheet :=
  [("VC Firms", Except.ok fdfNoWeb), ("Team Members", Except.ok mdfEmpty)]

/-- Example member row whose email cell is whitespace-only text. -/
def wsRow : Row :=
  [("vcFirm", Value.str "Acme"), ("name", Value.str "Bob"), ("email", Value.str " ")]

/-- Example member table containing only the whitespace-email row. -/
def mdfWs : DataFrame :=
  ⟨["vcFirm", "name", "linkedinUrl", "email", "title"], [wsRow]⟩

/-- Example firm table with two distinct firms. -/
def fdfTwoFirms : DataFrame :=
  ⟨["companyName"],
   [[("companyName", Value.str "A")], [("companyName", Value.str "B")]]⟩

/-- Shape of one export entry for a sampled firm `f`: it is built from the
first firm row matching `f`, carries the full row dict, the website with
empty-string fallback, and the dicts of ALL member rows whose firm
reference equals `f`. -/
def entrySpec (fdf mdf : DataFrame) (f : Value) (e : SampleEntry) : Prop :=
  ∃ row, firstMatching fdf "companyName" f = Except.ok row ∧
    e.firm = f ∧
    e.website = ((toDict fdf.cols row).lookup "websiteUrl").getD (Value.str "") ∧
    e.firm_data = toDict fdf.cols row ∧
    e.team_members =
      (mdf.rows.filter (fun r => pdEq (cellVal r "vcFirm") f)).map (toDict mdf.cols)

/-- Shape of one serialized export entry for a sampled firm `f`: every
field of the first matching firm row appears text-coerced in `firm_data`,
and `team_members` is the serialization of ALL matching member rows. -/
def jentrySpec (fdf mdf : DataFrame) (f : Value) (je : JEntry) : Prop :=
  ∃ row, firstMatching fdf "companyName" f = Except.ok row ∧
    (∀ p ∈ toDict fdf.cols row, (p.1, jsonEncode p.2) ∈ je.firm_data) ∧
    je.team_members =
      (mdf.rows.filter (fun r => pdEq (cellVal r "vcFirm") f)).map
        (fun r => (toDict mdf.cols r).map (fun p => (p.1, jsonEncode p.2)))

/-- Members of `pandasUniqueAux seen l` come from `l` and avoid `seen`. -/
theorem pandasUniqueAux_mem : ∀ (l seen : List Value) (x : Value),
    x ∈ pandasUniqueAux seen l → x ∈ l ∧ x ∉ seen
  | [], _, x, h => by simp [pandasUniqueAux] at h
  | a :: t, seen, x, h => by
    by_cases ha : a ∈ seen
    · simp only [pandasUniqueAux, if_pos ha] at h
      have := pandasUniqueAux_mem t seen x h
      exact ⟨List.mem_cons_of_mem a this.1, this.2⟩
    · simp only [pandasUniqueAux, if_neg ha] at h
      rcases List.mem_cons.mp h with hx | hx
      · exact ⟨by simp [hx], hx ▸ ha⟩
      · have := pandasUniqueAux_mem t (a :: seen) x hx
        exact ⟨List.mem_cons_of_mem a this.1,
          fun hs => this.2 (List.mem_cons_of_mem a hs)⟩

/-- The first-appearance deduplication never emits a value twice. -/
theorem pandasUniqueAux_nodup : ∀ (l seen : List Value),
    (pandasUniqueAux seen l).Nodup
  | [], _ => List.nodup_nil
  | a :: t, seen => by
    by_cases ha : a ∈ seen
    · simpa [pandasUniqueAux, if_pos ha] using pandasUniqueAux_nodup t seen
    · simp only [pandasUniqueAux, if_neg ha]
      refine List.nodup_cons.mpr ⟨fun hmem => ?_, pandasUniqueAux_nodup t (a :: seen)⟩
      exact (pandasUniqueAux_mem t (a :: seen) a hmem).2 (List.mem_cons_self a _)

/-- The distinct-value list is duplicate-free. -/
theorem pandasUnique_nodup (l : List Value) : (pandasUnique l).Nodup :=
  pandasUniqueAux_nodup l []

/-- Every distinct value occurs in the original list. -/
theorem pandasUnique_subset (l : List Value) : ∀ x ∈ pandasUnique l, x ∈ l :=
  fun x hx => (pandasUniqueAux_mem l [] x hx).1

/-- Pulling the last element of a nonempty list to the front is a
permutation. -/
theorem lastPermVal (d : Value) : ∀ (l : List Value), l ≠ [] →
    List.Perm (l.getD (l.length - 1) d :: l.dropLast) l
  | [], h => absurd rfl h
  | [x], _ => by simp
  | x :: y :: t2, _ => by
    have ih := lastPermVal d (y :: t2) (by simp)
    simp only [List.length_cons, Nat.add_sub_cancel] at ih ⊢
    have hgd : (x :: y :: t2).getD (t2.length + 1) d = (y :: t2).getD t2.length d :=
      List.getD_cons_succ
    rw [hgd, List.dropLast_cons₂]
    exact (List.Perm.swap x ((y :: t2).getD t2.length d) (y :: t2).dropLast).trans
      (ih.cons x)

/-- `dropLast` distributes over a cons with a nonempty tail. -/
theorem dropLast_cons_ne (x : Value) : ∀ (l : List Value), l ≠ [] →
    (x :: l).dropLast = x :: l.dropLast
  | [], h => absurd rfl h
  | _ :: _, _ => List.dropLast_cons₂

/-- One draw of the sampling pool: taking the element at a valid position,
overwriting its slot with the last element and dropping the last slot is a
permutation of the pool. -/
theorem drawPermVal (d : Value) : ∀ (l : List Value) (j : Nat), j < l.length →
    List.Perm (l.getD j d :: (l.set j (l.getD (l.length - 1) d)).dropLast) l
  | [], j, h => absurd h (by simp)
  | [x], 0, _ => by simp
  | x :: y :: t2, 0, _ => by
    have hlast := lastPermVal d (y :: t2) (by simp)
    simp only [List.length_cons, Nat.add_sub_cancel] at hlast ⊢
    have hgd : (x :: y :: t2).getD (t2.length + 1) d = (y :: t2).getD t2.length d :=
      List.getD_cons_succ
    rw [hgd, List.getD_cons_zero, List.set_cons_zero, List.dropLast_cons₂]
    exact hlast.cons x
  | x :: t, j + 1, h => by
    have hj : j < t.length := by simpa using h
    have hpos : 0 < t.length := Nat.lt_of_le_of_lt (Nat.zero_le j) hj
    have ht : t ≠ [] := List.ne_nil_of_length_pos hpos
    have ih := drawPermVal d t j hj
    have hgd : (x :: t).getD ((x :: t).length - 1) d = t.getD (t.length - 1) d := by
      have hlen : (x :: t).length - 1 = (t.length - 1) + 1 := by
        simp only [List.length_cons, Nat.add_sub_cancel]
        exact (Nat.succ_pred_eq_of_pos hpos).symm
      rw [hlen]; exact List.getD_cons_succ
    have hset : (x :: t).set (j + 1) (t.getD (t.length - 1) d) =
        x :: t.set j (t.getD (t.length - 1) d) := rfl
    have hsetne : t.set j (t.getD (t.length - 1) d) ≠ [] := by
      intro hempty
      have hl := List.length_set t j (t.getD (t.length - 1) d)
      rw [hempty] at hl
      exact ht (List.eq_nil_of_length_eq_zero (by simpa using hl.symm))
    rw [hgd, List.getD_cons_succ, hset, dropLast_cons_ne x _ hsetne]
    exact (List.Perm.swap x (t.getD j d) _).trans (ih.cons x)

/-- The selection always returns exactly `k` elements. -/
theorem sampleAux_length (g : Nat → Nat) : ∀ (k : Nat) (pool : List Value) (s : Nat),
    (sampleAux g k pool s).1.length = k
  | 0, _, _ => rfl
  | Nat.succ k, pool, s => by
    simp [sampleAux, sampleAux_length g k]

/-- When at most the pool size is requested, the selected elements extend
to a permutation of the pool: selection is without replacement. -/
theorem sampleAux_perm (g : Nat → Nat) : ∀ (k : Nat) (pool : List Value) (s : Nat),
    k ≤ pool.length →
    ∃ rest, List.Perm ((sampleAux g k pool s).1 ++ rest) pool
  | 0, pool, s, _ => ⟨pool, by simp [sampleAux]⟩
  | Nat.succ k, pool, s, hk => by
    have hpos : 0 < pool.length := Nat.lt_of_lt_of_le (Nat.succ_pos k) hk
    have hj : g s % pool.length < pool.length := Nat.mod_lt _ hpos
    have hdraw := drawPermVal Value.nan pool (g s % pool.length) hj
    have hk2 : k ≤ (poolNext pool (g s % pool.length)).length := by
      rw [poolNext, List.length_dropLast, List.length_set]
      exact Nat.le_pred_of_lt (Nat.lt_of_lt_of_le (Nat.lt_succ_self k) hk)
    obtain ⟨rest, hrest⟩ := sampleAux_perm g k _ (g s) hk2
    refine ⟨rest, ?_⟩
    simp only [sampleAux, randBelow]
    exact ((hrest.cons _).trans (by simpa [poolNext] using hdraw))

/-- Selecting from a duplicate-free pool yields a duplicate-free sample. -/
theorem randomSample_nodup (g : Nat → Nat) (s : Nat) (pool : List Value) (k : Nat)
    (hn : pool.Nodup) (hk : k ≤ pool.length) : (randomSample g s pool k).Nodup := by
  obtain ⟨rest, hperm⟩ := sampleAux_perm g k pool s hk
  exact (hperm.symm.nodup hn).of_append_left

/-- Every sampled element belongs to the pool. -/
theorem randomSample_subset (g : Nat → Nat) (s : Nat) (pool : List Value) (k : Nat)
    (hk : k ≤ pool.length) : ∀ x ∈ randomSample g s pool k, x ∈ pool := by
  obtain ⟨rest, hperm⟩ := sampleAux_perm g k pool s hk
  intro x hx
  exact hperm.mem_iff.mp (List.mem_append.mpr (Or.inl hx))

/-- The sample has exactly the requested size. -/
theorem randomSample_length (g : Nat → Nat) (s : Nat) (pool : List Value) (k : Nat) :
    (randomSample g s pool k).length = k :=
  sampleAux_length g k pool s

/-- The sampled firm names of a run: duplicate-free, of size
`min 5 (number of distinct names)`, and all drawn from the distinct names. -/
theorem scriptSampleFirms_spec (rng : Nat) (fdf : DataFrame) :
    (scriptSampleFirmsFrom rng fdf).length = min 5 (uniqueFirms fdf).length ∧
    (scriptSampleFirmsFrom rng fdf).Nodup ∧
    ∀ x ∈ scriptSampleFirmsFrom rng fdf, x ∈ uniqueFirms fdf := by
  refine ⟨randomSample_length _ _ _ _, ?_, ?_⟩
  · exact randomSample_nodup _ _ _ _ (pandasUnique_nodup _) (Nat.min_le_right _ _)
  · exact randomSample_subset _ _ _ _ (Nat.min_le_right _ _)

/-- Looking a column up in a row dict finds the row's cell exactly when the
column belongs to the frame. -/
theorem lookup_toDict : ∀ (cols : List String) (r : Row) (c : String),
    (toDict cols r).lookup c = if c ∈ cols then some (cellVal r c) else none
  | [], r, c => by simp [toDict]
  | a :: t, r, c => by
    rw [toDict, List.map_cons, List.lookup_cons]
    by_cases hca : c = a
    · subst hca
      simp
    · have hb : (c == a) = false := beq_eq_false_iff_ne.mpr hca
      rw [hb]
      have ih := lookup_toDict t r c
      rw [toDict] at ih
      rw [ih]
      simp [hca]

/-- The export loop succeeds exactly entrywise: on success every sampled
firm corresponds to an entry of the stated shape, in order. -/
theorem buildSampleData_spec (fdf mdf : DataFrame) : ∀ (smp : List Value)
    (entries : List SampleEntry), buildSampleData fdf mdf smp = Except.ok entries →
    List.Forall₂ (entrySpec fdf mdf) smp entries
  | [], entries, h => by
    simp only [buildSampleData, Except.ok.injEq] at h
    rw [← h]
    exact List.Forall₂.nil
  | f :: fs, entries, h => by
    rw [buildSampleData] at h
    cases hfm : firstMatching fdf "companyName" f with
    | error e => rw [hfm] at h; simp at h
    | ok row =>
      rw [hfm] at h
      by_cases hv : "vcFirm" ∈ mdf.cols
      · simp only [if_pos hv] at h
        cases hrec : buildSampleData fdf mdf fs with
        | error e => rw [hrec] at h; simp at h
        | ok rest =>
          rw [hrec] at h
          simp only [Except.ok.injEq] at h
          rw [← h]
          exact List.Forall₂.cons ⟨row, hfm, rfl, rfl, rfl, rfl⟩
            (buildSampleData_spec fdf mdf fs rest hrec)
      · simp [if_neg hv] at h

/-- Serialization of the export entries, entrywise. -/
theorem exportJson_spec (fdf mdf : DataFrame) (smp : List Value)
    (jentries : List JEntry) (h : exportJson fdf mdf smp = Except.ok jentries) :
    List.Forall₂ (jentrySpec fdf mdf) smp jentries := by
  rw [exportJson] at h
  cases hb : buildSampleData fdf mdf smp with
  | error e => rw [hb] at h; simp at h
  | ok entries =>
    rw [hb] at h
    simp only [Except.ok.injEq] at h
    have hspec := buildSampleData_spec fdf mdf smp entries hb
    rw [← h]
    refine List.forall₂_map_right_iff.mpr (hspec.imp ?_)
    rintro f e ⟨row, hfm, hfirm, hweb, hdata, hmem⟩
    refine ⟨row, hfm, ?_, ?_⟩
    · intro p hp
      rw [encodeEntry]
      simp only [hdata]
      exact List.mem_map.mpr ⟨p, hp, rfl⟩
    · rw [encodeEntry]
      simp only [hmem, List.map_map]
      rfl

/-- A matching row makes `iloc[0]` succeed. -/
theorem firstMatching_ok (df : DataFrame) (c : String) (v : Value) (hc : c ∈ df.cols)
    (hrow : ∃ r ∈ df.rows, pdEq (cellVal r c) v = true) :
    ∃ row, firstMatching df c v = Except.ok row := by
  obtain ⟨r, hr, hp⟩ := hrow
  have hmem : r ∈ df.rows.filter (fun x => pdEq (cellVal x c) v) :=
    List.mem_filter.mpr ⟨hr, hp⟩
  cases hf : (df.rows.filter (fun x => pdEq (cellVal x c) v)).head? with
  | none =>
    rw [List.head?_eq_none_iff] at hf
    rw [hf] at hmem
    exact absurd hmem (List.not_mem_nil r)
  | some row =>
    refine ⟨row, ?_⟩
    rw [firstMatching, if_pos hc, hf]

/-- With a name column present, the member preview lines always build. -/
theorem previewMembers_ok (mcols : List String) (hn : "name" ∈ mcols) :
    ∀ rs : List Row, ∃ ps, previewMembers mcols rs = Except.ok ps
  | [] => ⟨[], rfl⟩
  | r :: rest => by
    obtain ⟨ps, hps⟩ := previewMembers_ok mcols hn rest
    refine ⟨{ name := cellVal r "name",
              title := (seriesGet mcols r "title").getD (Value.str "N/A"),
              emailFlag := samplerFlag mcols r "email",
              linkedinFlag := samplerFlag mcols r "linkedinUrl",
              portfolioFlag := samplerFlag mcols r "portfolioCompanies" } :: ps, ?_⟩
    rw [previewMembers, if_pos hn, hps]

/-- With the needed columns present and a matching firm row for every
sampled firm, the preview loop completes. -/
theorem buildPreview_ok (fdf mdf : DataFrame) (hc : "companyName" ∈ fdf.cols)
    (hv : "vcFirm" ∈ mdf.cols) (hn : "name" ∈ mdf.cols) : ∀ (smp : List Value),
    (∀ f ∈ smp, ∃ r ∈ fdf.rows, pdEq (cellVal r "companyName") f = true) →
    ∃ prev, buildPreview fdf mdf smp = Except.ok prev
  | [], _ => ⟨[], rfl⟩
  | f :: fs, hall => by
    obtain ⟨row, hrow⟩ := firstMatching_ok fdf "companyName" f hc (hall f (by simp))
    obtain ⟨ps, hps⟩ := previewMembers_ok mdf.cols hn
      ((mdf.rows.filter (fun r => pdEq (cellVal r "vcFirm") f)).take 5)
    obtain ⟨rest, hrest⟩ := buildPreview_ok fdf mdf hc hv hn fs
      (fun x hx => hall x (by simp [hx]))
    refine ⟨{ firm := f,
              website := (seriesGet fdf.cols row "websiteUrl").getD (Value.str "N/A"),
              memberCount := (mdf.rows.filter (fun r => pdEq (cellVal r "vcFirm") f)).length,
              members := ps } :: rest, ?_⟩
    rw [buildPreview, hrow]
    simp only [if_pos hv, hps, hrest]

/-- With the needed columns present and a matching firm row for every
sampled firm, the export loop completes. -/
theorem buildSampleData_ok (fdf mdf : DataFrame) (hc : "companyName" ∈ fdf.cols)
    (hv : "vcFirm" ∈ mdf.cols) : ∀ (smp : List Value),
    (∀ f ∈ smp, ∃ r ∈ fdf.rows, pdEq (cellVal r "companyName") f = true) →
    ∃ entries, buildSampleData fdf mdf smp = Except.ok entries
  | [], _ => ⟨[], rfl⟩
  | f :: fs, hall => by
    obtain ⟨row, hrow⟩ := firstMatching_ok fdf "companyName" f hc (hall f (by simp))
    obtain ⟨rest, hrest⟩ := buildSampleData_ok fdf mdf hc hv fs
      (fun x hx => hall x (by simp [hx]))
    refine ⟨{ firm := f,
              website := ((toDict fdf.cols row).lookup "websiteUrl").getD (Value.str ""),
              firm_data := toDict fdf.cols row,
              team_members := (mdf.rows.filter
                (fun r => pdEq (cellVal r "vcFirm") f)).map (toDict mdf.cols) } :: rest, ?_⟩
    rw [buildSampleData, hrow]
    simp only [if_pos hv, hrest]

/-- Every firm name the run samples is carried by an actual firm row, as
long as no company name cell is NaN. -/
theorem sample_firm_exists (rng : Nat) (fdf : DataFrame)
    (hnan : ∀ v ∈ colValues fdf "companyName", isna v = false) :
    ∀ f ∈ scriptSampleFirmsFrom rng fdf,
      ∃ r ∈ fdf.rows, pdEq (cellVal r "companyName") f = true := by
  intro f hf
  have hu : f ∈ uniqueFirms fdf := (scriptSampleFirms_spec rng fdf).2.2 f hf
  have hcol : f ∈ colValues fdf "companyName" :=
    pandasUnique_subset _ f hu
  obtain ⟨r, hr, hcell⟩ := List.mem_map.mp hcol
  refine ⟨r, hr, ?_⟩
  rw [pdEq, hcell]
  simp [hnan f hcol]

/-- A field's coverage count never exceeds the row count. -/
theorem filledCount_le (df : DataFrame) (c : String) :
    filledCount df c ≤ df.rows.length := by
  have h := List.countP_le_length (l := colValues df c) coverageFilled
  rwa [colValues, List.length_map] at h

/-- Rounding to one decimal preserves the `[0, 100]` window. -/
theorem round1_bounds (q : ℚ) (h0 : 0 ≤ q) (h1 : q ≤ 100) :
    0 ≤ round1 q ∧ round1 q ≤ 100 := by
  have hmono : ∀ a b : ℚ, a ≤ b → round a ≤ round b := by
    intro a b hab
    rw [round_eq, round_eq]
    exact Int.floor_le_floor (by linarith)
  have hlow : (0 : ℤ) ≤ round (10 * q) := by
    have := hmono 0 (10 * q) (by linarith)
    simpa using this
  have hhigh : round (10 * q) ≤ 1000 := by
    have := hmono (10 * q) 1000 (by linarith)
    simpa using this
  constructor
  · rw [round1]
    exact div_nonneg (by exact_mod_cast hlow) (by norm_num)
  · rw [round1]
    rw [div_le_iff₀ (by norm_num : (0:ℚ) < 10)]
    calc ((round (10 * q) : ℤ) : ℚ) ≤ ((1000 : ℤ) : ℚ) := by exact_mod_cast hhigh
      _ = 100 * 10 := by norm_num

/-- With both required sheets present, loading succeeds and hands over the
optional-sheet results unchanged. -/
theorem loadPhase_ok (file : Spreadsheet) (fdf mdf : DataFrame)
    (hf : file.lookup "VC Firms" = some (Except.ok fdf))
    (hm : file.lookup "Team Members" = some (Except.ok mdf)) :
    loadPhase file = Except.ok (fdf, mdf,
      readOptionalSheet file "Portfolio Companies",
      readOptionalSheet file "Extraction Metrics") := by
  rw [loadPhase, readSheet, hf]
  simp only [readSheet, hm]

/-- With both required sheets present, the run is the compute phase on the
loaded frames. -/
theorem runAudit_eq (rng : Nat) (file : Spreadsheet) (fdf mdf : DataFrame)
    (hf : file.lookup "VC Firms" = some (Except.ok fdf))
    (hm : file.lookup "Team Members" = some (Except.ok mdf)) :
    runAudit rng file = auditCore rng fdf mdf
      (readOptionalSheet file "Portfolio Companies").2
      (readOptionalSheet file "Extraction Metrics").2 := by
  rw [runAudit, loadPhase_ok file fdf mdf hf hm]

/-- With every hard-required column present and no NaN company name, the
compute phase completes and produces exactly the statistics, sample,
preview and JSON export of the embedding. -/
theorem auditCore_ok (rng : Nat) (fdf mdf : DataFrame) (hasP hasM : Bool)
    (hv : "vcFirm" ∈ mdf.cols) (hl : "linkedinUrl" ∈ mdf.cols)
    (he : "email" ∈ mdf.cols) (ht : "title" ∈ mdf.cols)
    (hn : "name" ∈ mdf.cols) (hc : "companyName" ∈ fdf.cols)
    (hnan : ∀ v ∈ colValues fdf "companyName", isna v = false) :
    ∃ prev jentries,
      exportJson fdf mdf (scriptSampleFirmsFrom rng fdf) = Except.ok jentries ∧
      auditCore rng fdf mdf hasP hasM = Except.ok
        { totalFirms := fdf.rows.length,
          totalMembers := mdf.rows.length,
          hasPortfolio := hasP,
          hasMetrics := hasM,
          meanMembersPerFirm := groupMean mdf,
          linkedinPct := coveragePct mdf "linkedinUrl",
          emailPct := coveragePct mdf "email",
          portfolioPct :=
            if "portfolioCompanies" ∈ mdf.cols then
              some (coveragePct mdf "portfolioCompanies")
            else none,
          titlePct := coveragePct mdf "title",
          sampleFirms := scriptSampleFirmsFrom rng fdf,
          preview := prev,
          jsonFile := jentries } := by
  have hall := sample_firm_exists rng fdf hnan
  obtain ⟨prev, hprev⟩ := buildPreview_ok fdf mdf hc hv hn _ hall
  obtain ⟨entries, hentries⟩ := buildSampleData_ok fdf mdf hc hv _ hall
  have hexp : exportJson fdf mdf (scriptSampleFirmsFrom rng fdf) =
      Except.ok (entries.map encodeEntry) := by
    rw [exportJson, hentries]
  refine ⟨prev, entries.map encodeEntry, hexp, ?_⟩
  rw [auditCore, if_pos hv, if_pos hl, if_pos he, if_pos ht, if_pos hc, hprev]
  simp only [hexp]

/-- C3: The Sampler is deterministic: whatever the process-wide random
state was before the run, seeding with 42 before the single sampling draw
makes two runs over the same Firms table return the identical sequence of
sampled firm names, in the same order — and the identical whole-run
output. -/
theorem claim_C3 (r1 r2 : Nat) (fdf : DataFrame) (file : Spreadsheet) :
    scriptSampleFirmsFrom r1 fdf = scriptSampleFirmsFrom r2 fdf ∧
    runAudit r1 file = runAudit r2 file :=
  ⟨rfl, rfl⟩

/-- C4: For every Firms table the Sampler returns exactly
`min 5 (number of distinct companyName values)` firm names, drawn without
replacement from the distinct display names: the sample never exceeds that
size, never holds a duplicate, and stays inside the distinct-name set. -/
theorem claim_C4 (fdf : DataFrame) :
    (scriptSampleFirms fdf).length = min 5 (uniqueFirms fdf).length ∧
    (scriptSampleFirms fdf).Nodup ∧
    ∀ x ∈ scriptSampleFirms fdf, x ∈ uniqueFirms fdf :=
  scriptSampleFirms_spec 0 fdf

/-- Witness for C4 on a concrete two-firm table. -/
theorem claim_C4_witness :
    (scriptSampleFirms fdfTwoFirms).length = min 5 (uniqueFirms fdfTwoFirms).length ∧
    (scriptSampleFirms fdfTwoFirms).Nodup ∧
    ∀ x ∈ scriptSampleFirms fdfTwoFirms, x ∈ uniqueFirms fdfTwoFirms :=
  claim_C4 fdfTwoFirms

/-- C10: The optional-sheet handlers catch every error raised while
reading Portfolio Companies or Extraction Metrics — whatever the errors
`e1`, `e2` are, not only sheet-not-found — silently turning them into the
feature-absent state with an empty table, and loading continues. -/
theorem claim_C10 (file : Spreadsheet) (e1 e2 : PyErr) (fdf mdf : DataFrame)
    (hf : file.lookup "VC Firms" = some (Except.ok fdf))
    (hm : file.lookup "Team Members" = some (Except.ok mdf))
    (hp : file.lookup "Portfolio Companies" = some (Except.error e1))
    (hx : file.lookup "Extraction Metrics" = some (Except.error e2)) :
    loadPhase file =
      Except.ok (fdf, mdf, (DataFrame.empty, false), (DataFrame.empty, false)) := by
  rw [loadPhase_ok file fdf mdf hf hm]
  simp only [readOptionalSheet, readSheet, hp, hx]

/-- Witness for C10 on a concrete file whose optional sheets are corrupt. -/
theorem claim_C10_witness :
    loadPhase fileCorruptOpt =
      Except.ok (fdfAcme, mdfTwo, (DataFrame.empty, false), (DataFrame.empty, false)) :=
  claim_C10 fileCorruptOpt (PyErr.otherError "corrupt sheet") (PyErr.otherError "bad bytes")
    fdfAcme mdfTwo (by decide) (by decide) (by decide) (by decide)

/-- C5: A missing required sheet (VC Firms or Team Members) aborts the run
with an uncaught error, so no output — coverage report or JSON sample
file — exists; missing optional sheets merely load as unavailable (empty
frame, `false` flag) and the run proceeds past loading. -/
theorem claim_C5 (rng : Nat) (file : Spreadsheet) :
    ((file.lookup "VC Firms" = none ∨ file.lookup "Team Members" = none) →
      ∃ e, runAudit rng file = Except.error e) ∧
    (∀ fdf mdf, file.lookup "VC Firms" = some (Except.ok fdf) →
      file.lookup "Team Members" = some (Except.ok mdf) →
      file.lookup "Portfolio Companies" = none →
      file.lookup "Extraction Metrics" = none →
      loadPhase file =
        Except.ok (fdf, mdf, (DataFrame.empty, false), (DataFrame.empty, false))) := by
  constructor
  · intro hmiss
    rcases hmiss with h | h
    · exact ⟨PyErr.sheetNotFound "VC Firms",
        by simp only [runAudit, loadPhase, readSheet, h]⟩
    · cases hfst : file.lookup "VC Firms" with
      | none => exact ⟨PyErr.sheetNotFound "VC Firms",
          by simp only [runAudit, loadPhase, readSheet, hfst]⟩
      | some r =>
        cases r with
        | error e => exact ⟨e, by simp only [runAudit, loadPhase, readSheet, hfst]⟩
        | ok fdf => exact ⟨PyErr.sheetNotFound "Team Members",
            by simp only [runAudit, loadPhase, readSheet, hfst, h]⟩
  · intro fdf mdf hf hm hp hx
    rw [loadPhase_ok file fdf mdf hf hm]
    simp only [readOptionalSheet, readSheet, hp, hx]

/-- Witness for C5: a file without the VC Firms sheet aborts; a file with
only the required sheets loads with both optional features absent. -/
theorem claim_C5_witness :
    (∃ e, runAudit 0 fileNoFirms = Except.error e) ∧
    loadPhase fileOk =
      Except.ok (fdfAcme, mdfTwo, (DataFrame.empty, false), (DataFrame.empty, false)) :=
  ⟨(claim_C5 0 fileNoFirms).1 (Or.inl (by decide)),
   (claim_C5 0 fileOk).2 fdfAcme mdfTwo (by decide) (by decide) (by decide) (by decide)⟩

/-- C1 counterexample: a member whose email is the whitespace-only text
`" "` is counted as filled by the Coverage Analyzer (which does not
strip), counted as not filled by the spec's shared strip-based predicate,
and flagged as absent by the Sampler — so the claimed shared predicate
does not hold. -/
theorem claim_C1_counterexample :
    filledCount mdfWs "email" = 1 ∧
    mdfWs.rows.countP (fun r => specStripFilled (cellVal r "email")) = 0 ∧
    samplerFlag mdfWs.cols wsRow "email" = false := by
  exact ⟨by decide, by decide, by decide⟩

/-- C1 amended: the Coverage Analyzer counts a text cell as filled iff it
is not the empty string (no stripping), while the Sampler flags it iff its
stripped form is non-empty; the two agree on a text value exactly when it
is empty or strips to non-empty, a whitespace-only text being filled for
coverage but absent for the sampler; on NaN they disagree the other way:
coverage counts NaN as not filled while the sampler flags it present. -/
theorem claim_C1_amended (s : String) :
    (coverageFilled (Value.str s) = samplerPresent (Value.str s) ↔
      (s = "" ∨ pyStrip s ≠ "")) ∧
    (pyStrip s = "" → s ≠ "" →
      coverageFilled (Value.str s) = true ∧ samplerPresent (Value.str s) = false) ∧
    coverageFilled Value.nan = false ∧ samplerPresent Value.nan = true := by
  have hempty : pyStrip "" = "" := rfl
  refine ⟨?_, ?_, by decide, by decide⟩
  · by_cases hs : s = ""
    · subst hs
      simp [coverageFilled, samplerPresent, pyTruthy, pyStr, isna, hempty]
    · by_cases ht : pyStrip s = ""
      · simp [coverageFilled, samplerPresent, pyTruthy, pyStr, isna, hs, ht]
      · simp [coverageFilled, samplerPresent, pyTruthy, pyStr, isna, hs, ht]
  · intro ht hs
    constructor
    · simp [coverageFilled, isna, hs]
    · simp [samplerPresent, pyStr, ht]

/-- Witness for C1 amended at the whitespace-only text `" "`. -/
theorem claim_C1_witness :
    pyStrip " " = "" ∧ (" " : String) ≠ "" ∧
    coverageFilled (Value.str " ") = true ∧ samplerPresent (Value.str " ") = false :=
  ⟨by decide, by decide,
   ((claim_C1_amended " ").2.1 (by decide) (by decide)).1,
   ((claim_C1_amended " ").2.1 (by decide) (by decide)).2⟩

/-- C2: For every non-empty member table and every target field, the
reported coverage percentage exists, lies in `[0, 100]`, and equals
`100 * filled_count / total_count` rounded to one decimal place. -/
theorem claim_C2 (mdf : DataFrame) (c : String) (hne : mdf.rows ≠ []) :
    ∃ p, coveragePct mdf c = some p ∧ 0 ≤ p ∧ p ≤ 100 ∧
      p = round1 (100 * (filledCount mdf c : ℚ) / (mdf.rows.length : ℚ)) := by
  have hlen : mdf.rows.length ≠ 0 := fun h => hne (List.eq_nil_of_length_eq_zero h)
  have hlpos : (0 : ℚ) < (mdf.rows.length : ℚ) := by
    exact_mod_cast Nat.pos_of_ne_zero hlen
  have hfle : (filledCount mdf c : ℚ) ≤ (mdf.rows.length : ℚ) := by
    exact_mod_cast filledCount_le mdf c
  have hq0 : 0 ≤ 100 * (filledCount mdf c : ℚ) / (mdf.rows.length : ℚ) := by positivity
  have hq1 : 100 * (filledCount mdf c : ℚ) / (mdf.rows.length : ℚ) ≤ 100 := by
    rw [div_le_iff₀ hlpos]
    nlinarith [hfle]
  obtain ⟨hb0, hb1⟩ := round1_bounds _ hq0 hq1
  refine ⟨_, ?_, hb0, hb1, rfl⟩
  rw [coveragePct, if_neg hlen]

/-- Witness for C2 on the concrete two-member table. -/
theorem claim_C2_witness :
    ∃ p, coveragePct mdfTwo "email" = some p ∧ 0 ≤ p ∧ p ≤ 100 ∧
      p = round1 (100 * (filledCount mdfTwo "email" : ℚ) / (mdfTwo.rows.length : ℚ)) :=
  claim_C2 mdfTwo "email" (by decide)

/-- C7 counterexample: a member sheet holding only the two columns the
spec calls required (`vcFirm`, `name`) makes the run abort with a
missing-column error on `linkedinUrl` — the claim that only `vcFirm` and
`name` are required is false on the code. -/
theorem claim_C7_counterexample :
    runAudit 0 fileBareMembers = Except.error (PyErr.keyError "linkedinUrl") := by
  decide

/-- C7 amended: the coverage pass hard-requires `vcFirm`, `linkedinUrl`,
`email` and `title` (and the preview requires `name`); only
`portfolioCompanies` and `decisionMakerTier` are truly optional — with
those two columns absent but the hard-required ones present (and no NaN
company name), the run completes and reports the portfolio coverage as
unavailable. -/
theorem claim_C7_amended (rng : Nat) (file : Spreadsheet) (fdf mdf : DataFrame)
    (hf : file.lookup "VC Firms" = some (Except.ok fdf))
    (hm : file.lookup "Team Members" = some (Except.ok mdf))
    (hc : "companyName" ∈ fdf.cols) (hv : "vcFirm" ∈ mdf.cols)
    (hn : "name" ∈ mdf.cols) (hl : "linkedinUrl" ∈ mdf.cols)
    (he : "email" ∈ mdf.cols) (ht : "title" ∈ mdf.cols)
    (hnan : ∀ v ∈ colValues fdf "companyName", isna v = false)
    (hpc : "portfolioCompanies" ∉ mdf.cols) (hdt : "decisionMakerTier" ∉ mdf.cols) :
    ∃ out, runAudit rng file = Except.ok out ∧ out.portfolioPct = none := by
  obtain ⟨prev, jentries, hexp, hcore⟩ :=
    auditCore_ok rng fdf mdf (readOptionalSheet file "Portfolio Companies").2
      (readOptionalSheet file "Extraction Metrics").2 hv hl he ht hn hc hnan
  refine ⟨_, (runAudit_eq rng file fdf mdf hf hm).trans hcore, ?_⟩
  simp only [if_neg hpc]

/-- Witness for C7 amended: the two-member file lacks both optional
columns and completes. -/
theorem claim_C7_witness :
    ∃ out, runAudit 0 fileOk = Except.ok out ∧ out.portfolioPct = none :=
  claim_C7_amended 0 fileOk fdfAcme mdfTwo (by decide) (by decide) (by decide)
    (by decide) (by decide) (by decide) (by decide) (by decide) (by decide)
    (by decide) (by decide)

/-- C6: Round-trip of the export: whenever the export loop succeeds, each
sampled firm in order maps to a JSON element carrying every field of its
first matching firm row (text-coerced by `default=str` where not natively
representable) under `firm_data`, and the serialized dicts of ALL member
rows whose firm reference equals the firm name under `team_members` — the
first-5 cap of the preview does not apply to the export. -/
theorem claim_C6 (fdf mdf : DataFrame) (smp : List Value) (jentries : List JEntry)
    (h : exportJson fdf mdf smp = Except.ok jentries) :
    List.Forall₂ (jentrySpec fdf mdf) smp jentries :=
  exportJson_spec fdf mdf smp jentries h

/-- Witness for C6 on the concrete Acme tables: the single sampled firm
exports both member rows (the second with NaN cells), not just a preview
subset. -/
theorem claim_C6_witness :
    List.Forall₂ (jentrySpec fdfAcme mdfTwo) (scriptSampleFirms fdfAcme)
      [{ firm := JValue.jstr "Acme",
         website := JValue.jstr "https://acme.vc",
         firm_data := [("companyName", JValue.jstr "Acme"),
                       ("websiteUrl", JValue.jstr "https://acme.vc")],
         team_members := [
           [("vcFirm", JValue.jstr "Acme"), ("name", JValue.jstr "Bob"),
            ("linkedinUrl", JValue.jstr "L"), ("email", JValue.jstr "e@x"),
            ("title", JValue.jstr "GP")],
           [("vcFirm", JValue.jstr "Acme"), ("name", JValue.jstr "Ann"),
            ("linkedinUrl", JValue.jnan), ("email", JValue.jstr ""),
            ("title", JValue.jnan)]] }] :=
  claim_C6 fdfAcme mdfTwo (scriptSampleFirms fdfAcme) _ (by decide)

/-- C8 counterexample: a firm whose websiteUrl cell is the NaN
missing-value marker is exported with `website` equal to NaN — not the
empty string the claim requires for an absent value. -/
theorem claim_C8_counterexample :
    buildSampleData fdfNanWeb mdfEmpty (scriptSampleFirms fdfNanWeb) =
      Except.ok [{ firm := Value.str "A", website := Value.nan,
                   firm_data := [("companyName", Value.str "A"),
                                 ("websiteUrl", Value.nan)],
                   team_members := [] }] ∧ Value.nan ≠ Value.str "" :=
  ⟨by decide, by decide⟩

/-- C8 amended: the exported `website` equals the firm row's websiteUrl
cell whenever the websiteUrl column exists (a NaN cell is exported as
NaN), and is the empty string exactly when the column is missing from the
Firms table. -/
theorem claim_C8_amended (fdf mdf : DataFrame) (smp : List Value)
    (entries : List SampleEntry) (h : buildSampleData fdf mdf smp = Except.ok entries) :
    List.Forall₂ (fun f e => ∃ row,
      firstMatching fdf "companyName" f = Except.ok row ∧
      SampleEntry.website e =
        (if "websiteUrl" ∈ fdf.cols then cellVal row "websiteUrl" else Value.str ""))
      smp entries := by
  refine (buildSampleData_spec fdf mdf smp entries h).imp ?_
  rintro f e ⟨row, hfm, hfirm, hweb, hdata, hmem⟩
  refine ⟨row, hfm, ?_⟩
  rw [hweb, lookup_toDict]
  by_cases hwc : "websiteUrl" ∈ fdf.cols
  · rw [if_pos hwc, if_pos hwc]
    rfl
  · rw [if_neg hwc, if_neg hwc]
    rfl

/-- Witness for C8 amended on the NaN-website table. -/
theorem claim_C8_witness :
    List.Forall₂ (fun f e => ∃ row,
      firstMatching fdfNanWeb "companyName" f = Except.ok row ∧
      SampleEntry.website e =
        (if "websiteUrl" ∈ fdfNanWeb.cols then cellVal row "websiteUrl" else Value.str ""))
      (scriptSampleFirms fdfNanWeb)
      [{ firm := Value.str "A", website := Value.nan,
         firm_data := [("companyName", Value.str "A"), ("websiteUrl", Value.nan)],
         team_members := [] }] :=
  claim_C8_amended fdfNanWeb mdfEmpty (scriptSampleFirms fdfNanWeb) _ (by decide)

/-- C9 counterexample: with a successfully loaded member sheet of zero
rows the run does NOT abort: the numpy scalar divisions by zero yield NaN
percentages, the report completes, and the JSON sample file is written
with the sampled firm. -/
theorem claim_C9_counterexample :
    runAudit 0 fileEmptyMembers = Except.ok
      { totalFirms := 1, totalMembers := 0, hasPortfolio := false, hasMetrics := false,
        meanMembersPerFirm := none, linkedinPct := none, emailPct := none,
        portfolioPct := none, titlePct := none,
        sampleFirms := [Value.str "A"],
        preview := [{ firm := Value.str "A", website := Value.str "N/A",
                      memberCount := 0, members := [] }],
        jsonFile := [{ firm := JValue.jstr "A", website := JValue.jstr "",
                       firm_data := [("companyName", JValue.jstr "A")],
                       team_members := [] }] } := by
  decide

/-- C9 amended: for an empty member table (required columns present, no
NaN company name) the run completes: every coverage percentage is the NaN
of a numpy division by zero, and the JSON sample file is still written
with one element per sampled firm. -/
theorem claim_C9_amended (rng : Nat) (file : Spreadsheet) (fdf mdf : DataFrame)
    (hf : file.lookup "VC Firms" = some (Except.ok fdf))
    (hm : file.lookup "Team Members" = some (Except.ok mdf))
    (hc : "companyName" ∈ fdf.cols) (hv : "vcFirm" ∈ mdf.cols)
    (hn : "name" ∈ mdf.cols) (hl : "linkedinUrl" ∈ mdf.cols)
    (he : "email" ∈ mdf.cols) (ht : "title" ∈ mdf.cols)
    (hnan : ∀ v ∈ colValues fdf "companyName", isna v = false)
    (hrows : mdf.rows = []) :
    ∃ out, runAudit rng file = Except.ok out ∧
      out.emailPct = none ∧ out.linkedinPct = none ∧ out.titlePct = none ∧
      out.jsonFile.length = (scriptSampleFirmsFrom rng fdf).length := by
  obtain ⟨prev, jentries, hexp, hcore⟩ :=
    auditCore_ok rng fdf mdf (readOptionalSheet file "Portfolio Companies").2
      (readOptionalSheet file "Extraction Metrics").2 hv hl he ht hn hc hnan
  have hlen := (exportJson_spec fdf mdf _ _ hexp).length_eq
  refine ⟨_, (runAudit_eq rng file fdf mdf hf hm).trans hcore, ?_, ?_, ?_, hlen.symm⟩
  · simp [coveragePct, hrows]
  · simp [coveragePct, hrows]
  · simp [coveragePct, hrows]

/-- Witness for C9 amended on the empty-member file. -/
theorem claim_C9_witness :
    ∃ out, runAudit 0 fileEmptyMembers = Except.ok out ∧
      out.emailPct = none ∧ out.linkedinPct = none ∧ out.titlePct = none ∧
      out.jsonFile.length = (scriptSampleFirmsFrom 0 fdfNoWeb).length :=
  claim_C9_amended 0 fileEmptyMembers fdfNoWeb mdfEmpty (by decide) (by decide)
    (by decide) (by decide) (by decide) (by decide) (by decide) (by decide)
    (by decide) (by decide)
